import Mathlib

/-!
Verification of the contact manager (src/contact_manager.py).

The phone normalization is embedded directly as a pure function on strings.
Digit characters are modelled as the ASCII decimal digits (the regex class
stripped by the code). The MySQL-backed store is embedded as a list of rows
plus an auto-increment counter; every store operation takes an optional
fault argument modelling an exception raised by the database driver during
statement execution (the code catches these and converts them to absent or
false results). Field matching in WHERE clauses is modelled as string
equality, abstracting over collation; an UPDATE reports the number of rows
actually changed (the MySQL default counted by the driver), a DELETE the
number of rows removed.
-/

namespace ContactMgr

/-- Digit characters kept by normalization: the result of removing the
non-digit characters of s, in order. -/
def digitsOf (s : String) : List Char := s.data.filter Char.isDigit

/-- The canonical formatting of a ten-digit list, mirroring the
interpolation of slices 0-3, 3-6 and 6-10 of the digit string. -/
def formatTen (ds : List Char) : String :=
  "+1-" ++ String.mk (ds.take 3) ++ "-" ++ String.mk ((ds.drop 3).take 3)
    ++ "-" ++ String.mk (ds.drop 6)

/-- Contact.normalize_phone: strip non-digits; with exactly 10 digits format
them, with 11 digits led by 1 drop that 1 and format the rest, otherwise
return the input unchanged. -/
def normalize_phone (phone : String) : String :=
  if (digitsOf phone).length = 10 then
    formatTen (digitsOf phone)
  else if (digitsOf phone).length = 11 ∧ (digitsOf phone).head? = some '1' then
    formatTen (digitsOf phone).tail
  else
    phone





/-- A stored row of the contacts table. -/
structure Row where
  id : Nat
  name : String
  email : String
  phone : String
deriving DecidableEq

/-- The contacts table: rows in insertion order plus the auto-increment
counter assigning the next id. -/
structure DB where
  rows : List Row
  nextId : Nat
deriving DecidableEq

/-- A Contact value: the constructor normalizes the phone. -/
structure Contact where
  name : String
  email : String
  phone : String
deriving DecidableEq

/-- Contact.__init__ : stores name and email verbatim and the normalized
phone. -/
def Contact.make (name email phone : String) : Contact :=
  ⟨name, email, normalize_phone phone⟩

/-- Errors raised by the database driver during statement execution:
an integrity error for a duplicate unique key, or any other driver error
(modelled by its message). -/
inductive DbErr where
  | integrityDup (email : String)
  | other (msg : String)
deriving DecidableEq

/-- Whether some stored row already holds this email (the UNIQUE column). -/
def hasEmail (db : DB) (e : String) : Bool :=
  db.rows.any (fun r => r.email == e)

/-- The INSERT statement: fails with an integrity error when the email
violates the UNIQUE constraint, with a generic driver error when the
environment faults; otherwise appends the row and yields lastrowid. -/
def insertContact (fault : Option String) (db : DB) (c : Contact) :
    Except DbErr (Nat × DB) :=
  match fault with
  | some m => .error (.other m)
  | none =>
    if hasEmail db c.email then
      .error (.integrityDup c.email)
    else
      .ok (db.nextId,
        ⟨db.rows ++ [⟨db.nextId, c.name, c.email, c.phone⟩], db.nextId + 1⟩)

/-- ContactManager.add_contact : runs the INSERT, returns the new id on
success; catches every driver error and returns the absent result with the
table untouched. -/
def add_contact (fault : Option String) (db : DB) (c : Contact) :
    Option Nat × DB :=
  match insertContact fault db c with
  | .ok (i, db2) => (some i, db2)
  | .error _ => (none, db)

/-- The valid query fields accepted by find, update and delete. -/
def validField (qt : String) : Bool :=
  qt == "name" || qt == "email"

/-- The WHERE clause of the generated statements: equality of the selected
column with the value (only reached for valid fields). -/
def matchesField (qt v : String) (r : Row) : Bool :=
  if qt == "name" then r.name == v else r.email == v

/-- ContactManager.find_contact : absent for an invalid field or a driver
fault, otherwise the first matching row projected to (name, email, phone). -/
def find_contact (fault : Option String) (qt v : String) (db : DB) :
    Option (String × String × String) :=
  if !validField qt then none
  else
    match fault with
    | some _ => none
    | none => (db.rows.find? (matchesField qt v)).map
        (fun r => (r.name, r.email, r.phone))

/-- ContactManager.update_phone : false for an invalid field or a driver
fault; otherwise normalizes the new phone, writes it to every matching row,
and reports whether the UPDATE affected (changed) at least one row. -/
def update_phone (fault : Option String) (qt v newPhone : String) (db : DB) :
    Bool × DB :=
  if !validField qt then (false, db)
  else
    match fault with
    | some _ => (false, db)
    | none =>
      let np := normalize_phone newPhone
      let changed := db.rows.countP
        (fun r => matchesField qt v r && r.phone != np)
      (changed != 0,
        ⟨db.rows.map (fun r =>
            if matchesField qt v r then ⟨r.id, r.name, r.email, np⟩ else r),
          db.nextId⟩)

/-- ContactManager.delete_contact : false for an invalid field or a driver
fault; otherwise removes every matching row and reports whether at least one
row was deleted. -/
def delete_contact (fault : Option String) (qt v : String) (db : DB) :
    Bool × DB :=
  if !validField qt then (false, db)
  else
    match fault with
    | some _ => (false, db)
    | none =>
      let deleted := db.rows.countP (matchesField qt v)
      (deleted != 0,
        ⟨db.rows.filter (fun r => !matchesField qt v r), db.nextId⟩)

/-- Row order produced by ORDER BY name: comparison of the name column. -/
def rowLe (a b : Row) : Prop := a.name ≤ b.name

instance : DecidableRel rowLe :=
  fun a b => (inferInstance : Decidable (a.name ≤ b.name))

instance : IsTotal Row rowLe := ⟨fun a b => le_total a.name b.name⟩

instance : IsTrans Row rowLe := ⟨fun _ _ _ hab hbc => le_trans hab hbc⟩

/-- ContactManager.get_all_contacts : empty on a driver fault, otherwise all
rows ordered by name, projected to (name, email, phone). -/
def get_all_contacts (fault : Option String) (db : DB) :
    List (String × String × String) :=
  match fault with
  | some _ => []
  | none => (db.rows.insertionSort rowLe).map
      (fun r => (r.name, r.email, r.phone))

/-- A record of the import file: dict.get on the three keys, a missing key
yielding the absent value. -/
structure JRecord where
  name : Option String
  email : Option String
  phone : Option String
deriving DecidableEq

/-- The runtime error raised inside the import loop. -/
inductive PyErr where
  | typeError
deriving DecidableEq

/-- Phone handling of Contact.__init__ on a value obtained from dict.get:
the regex substitution raises a type error on the absent (non-string) value
and otherwise normalizes. -/
def normalizePhoneOpt : Option String → Except PyErr String
  | none => .error .typeError
  | some s => .ok (normalize_phone s)

/-- The outcome of reading and parsing the import file: missing file, a
parse failure, a top-level structure without dict.get or without an
iterable contacts list (any of which the code converts to a zero count), or
the parsed list of records. -/
inductive ImportInput where
  | fileNotFound
  | jsonDecodeError
  | malformedTop
  | records (rs : List JRecord)
deriving DecidableEq

/-- The per-record loop of add_contacts_from_json, carrying the running
success count. Constructing the Contact normalizes the phone and raises on
an absent phone; that exception escapes the loop to the outer handler,
which returns 0 (earlier inserts persist in the table). An absent name or
email reaches the INSERT, violates NOT NULL, and is caught inside
add_contact as an integrity error, so the record is skipped uncounted. -/
def importLoop (db : DB) (n : Nat) : List JRecord → Nat × DB
  | [] => (n, db)
  | r :: rs =>
    match normalizePhoneOpt r.phone with
    | .error _ => (0, db)
    | .ok ph =>
      match r.name, r.email with
      | some nm, some em =>
        match add_contact none db ⟨nm, em, ph⟩ with
        | (some _, db2) => importLoop db2 (n + 1) rs
        | (none, db2) => importLoop db2 n rs
      | _, _ => importLoop db n rs

/-- ContactManager.add_contacts_from_json : zero for a missing file, a
parse error or a malformed top level; otherwise the loop over the records
starting from a zero count. -/
def add_contacts_from_json (db : DB) (inp : ImportInput) : Nat × DB :=
  match inp with
  | .fileNotFound => (0, db)
  | .jsonDecodeError => (0, db)
  | .malformedTop => (0, db)
  | .records rs => importLoop db 0 rs

/-- Modelled from the spec: the per-record outcomes the import is described
to produce, one flag per record telling whether add_contact succeeded for
it, threading the table through the batch and never aborting on a bad
record. -/
def importResults (db : DB) : List JRecord → List Bool × DB
  | [] => ([], db)
  | r :: rs =>
    match r.name, r.email, r.phone with
    | some nm, some em, some ph =>
      match add_contact none db (Contact.make nm em ph) with
      | (some _, db2) =>
        let p := importResults db2 rs
        (true :: p.1, p.2)
      | (none, db2) =>
        let p := importResults db2 rs
        (false :: p.1, p.2)
    | _, _, _ =>
      let p := importResults db rs
      (false :: p.1, p.2)

/-! Concrete values used by witnesses and the counterexample. -/

/-- A concrete one-row table used by witnesses. -/
def db1 : DB := ⟨[⟨1, "Alice", "alice@example.com", "+1-555-123-4567"⟩], 2⟩

/-- The empty table with the auto-increment counter at its initial value. -/
def dbEmpty : DB := ⟨[], 1⟩

/-- A well-formed import record. -/
def recAlice : JRecord :=
  ⟨some "Alice", some "alice@example.com", some "5551234567"⟩

/-- An import record whose phone key is missing. -/
def recNoPhone : JRecord := ⟨some "Bob", some "bob@example.com", none⟩

/-- A record duplicating the email of recAlice. -/
def recDupAlice : JRecord :=
  ⟨some "Alicia", some "alice@example.com", some "5559876543"⟩

/-! Helper lemmas about normalization. -/

lemma digitsOf_all_digits (s : String) : ∀ c ∈ digitsOf s, c.isDigit = true :=
  fun _ hc => (List.mem_filter.mp hc).2

lemma assembleTen (ds : List Char) :
    ds.take 3 ++ ((ds.drop 3).take 3 ++ ds.drop 6) = ds := by
  have h6 : ds.drop 6 = (ds.drop 3).drop 3 := by
    rw [List.drop_drop]
  rw [h6, List.take_append_drop, List.take_append_drop]

lemma data_mk (l : List Char) : (String.mk l).data = l := rfl

lemma digitsOf_formatTen (ds : List Char) (h : ∀ c ∈ ds, c.isDigit = true) :
    digitsOf (formatTen ds) = '1' :: ds := by
  have h1 : (ds.take 3).filter Char.isDigit = ds.take 3 :=
    List.filter_eq_self.mpr (fun c hc => h c (List.take_subset _ _ hc))
  have h2 : ((ds.drop 3).take 3).filter Char.isDigit = (ds.drop 3).take 3 :=
    List.filter_eq_self.mpr
      (fun c hc => h c (List.drop_subset _ _ (List.take_subset _ _ hc)))
  have h3 : (ds.drop 6).filter Char.isDigit = ds.drop 6 :=
    List.filter_eq_self.mpr (fun c hc => h c (List.drop_subset _ _ hc))
  have c1 : Char.isDigit '+' = false := by decide
  have c2 : Char.isDigit '1' = true := by decide
  have c3 : Char.isDigit '-' = false := by decide
  simp only [digitsOf, formatTen, String.data_append, data_mk,
    List.filter_append, List.filter_cons, c1, c2, c3, if_true, if_false,
    Bool.false_eq_true, ite_false, ite_true, List.append_nil,
    List.nil_append, List.append_assoc, List.singleton_append,
    List.cons_append, h1, h2, h3]
  rw [assembleTen]

/-- Claim C1: normalize_phone strips all non-digit characters; with exactly
10 remaining digits it returns +1-AAA-BBB-CCCC built from those digits in
order; with exactly 11 whose first is 1 it drops that leading 1 and formats
the remaining 10 the same way; in every other case it returns the input
unchanged; and the three quoted examples behave as stated. -/
theorem C1_normalize_phone_cases : ∀ s : String,
    ((digitsOf s).length = 10 →
      normalize_phone s = "+1-" ++ String.mk ((digitsOf s).take 3) ++ "-"
        ++ String.mk (((digitsOf s).drop 3).take 3) ++ "-"
        ++ String.mk ((digitsOf s).drop 6)) ∧
    ((digitsOf s).length = 11 → (digitsOf s).head? = some '1' →
      normalize_phone s = "+1-" ++ String.mk ((digitsOf s).tail.take 3) ++ "-"
        ++ String.mk (((digitsOf s).tail.drop 3).take 3) ++ "-"
        ++ String.mk ((digitsOf s).tail.drop 6)) ∧
    ((digitsOf s).length ≠ 10 →
      ¬((digitsOf s).length = 11 ∧ (digitsOf s).head? = some '1') →
      normalize_phone s = s) ∧
    normalize_phone "(555) 123-4567" = "+1-555-123-4567" ∧
    normalize_phone "15551234567" = "+1-555-123-4567" ∧
    normalize_phone "123" = "123" := by
  intro s
  refine ⟨?_, ?_, ?_, by decide, by decide, by decide⟩
  · intro h10
    simp [normalize_phone, formatTen, h10]
  · intro h11 hhd
    simp [normalize_phone, formatTen, h11, hhd]
  · intro h10 h11
    simp [normalize_phone, h10, h11]

/-- Witness for C1 at the concrete input with ten digits. -/
theorem C1_normalize_phone_cases_witness :
    normalize_phone "(555) 123-4567" = "+1-"
      ++ String.mk ((digitsOf "(555) 123-4567").take 3) ++ "-"
      ++ String.mk (((digitsOf "(555) 123-4567").drop 3).take 3) ++ "-"
      ++ String.mk ((digitsOf "(555) 123-4567").drop 6) :=
  (C1_normalize_phone_cases "(555) 123-4567").1 (by decide)

/-- Claim C2: normalize_phone is idempotent on every string, and the
canonical output form re-normalizes to itself. -/
theorem C2_normalize_phone_idempotent :
    (∀ s : String, normalize_phone (normalize_phone s) = normalize_phone s) ∧
    normalize_phone "+1-555-123-4567" = "+1-555-123-4567" := by
  refine ⟨?_, by decide⟩
  intro s
  by_cases h10 : (digitsOf s).length = 10
  · have hout : normalize_phone s = formatTen (digitsOf s) := by
      simp [normalize_phone, h10]
    rw [hout]
    have hd : digitsOf (formatTen (digitsOf s)) = '1' :: digitsOf s :=
      digitsOf_formatTen _ (digitsOf_all_digits s)
    simp [normalize_phone, hd, h10]
  · by_cases h11 : (digitsOf s).length = 11 ∧ (digitsOf s).head? = some '1'
    · have hout : normalize_phone s = formatTen (digitsOf s).tail := by
        simp [normalize_phone, h10, h11.1, h11.2]
      rw [hout]
      have htail : ∀ c ∈ (digitsOf s).tail, c.isDigit = true :=
        fun c hc => digitsOf_all_digits s c (List.mem_of_mem_tail hc)
      have hd := digitsOf_formatTen _ htail
      have hlen : (digitsOf s).tail.length = 10 := by
        rw [List.length_tail, h11.1]
      simp [normalize_phone, hd, hlen]
    · have hout : normalize_phone s = s := by
        simp [normalize_phone, h10, h11]
      rw [hout, hout]

/-- Claim C10: every output of normalize_phone is either the input itself or
exactly of the shape +1- three digits - three digits - four digits, where
those ten digit characters are, in order, a length-10 suffix of the digit
characters of the input (all of them in the 10-digit case, the last ten in
the 11-digit case). -/
theorem C10_normalize_phone_shape : ∀ s : String,
    normalize_phone s = s ∨
    ∃ a b c : List Char,
      normalize_phone s = "+1-" ++ String.mk a ++ "-" ++ String.mk b ++ "-"
        ++ String.mk c ∧
      a.length = 3 ∧ b.length = 3 ∧ c.length = 4 ∧
      (∀ ch ∈ a ++ b ++ c, ch.isDigit = true) ∧
      (a ++ b ++ c).length = 10 ∧
      (a ++ b ++ c).IsSuffix (digitsOf s) := by
  intro s
  by_cases h10 : (digitsOf s).length = 10
  · right
    refine ⟨(digitsOf s).take 3, ((digitsOf s).drop 3).take 3,
      (digitsOf s).drop 6, ?_, ?_, ?_, ?_, ?_, ?_, ?_⟩
    · simp [normalize_phone, formatTen, h10]
    · simp [List.length_take, h10]
    · simp [List.length_take, List.length_drop, h10]
    · simp [List.length_drop, h10]
    · intro ch hch
      rw [List.append_assoc, assembleTen] at hch
      exact digitsOf_all_digits s ch hch
    · rw [List.append_assoc, assembleTen]
      exact h10
    · rw [List.append_assoc, assembleTen]
  · by_cases h11 : (digitsOf s).length = 11 ∧ (digitsOf s).head? = some '1'
    · right
      refine ⟨(digitsOf s).tail.take 3, ((digitsOf s).tail.drop 3).take 3,
        (digitsOf s).tail.drop 6, ?_, ?_, ?_, ?_, ?_, ?_, ?_⟩
      · simp [normalize_phone, formatTen, h10, h11.1, h11.2]
      · simp [List.length_take, List.length_tail, h11.1]
      · simp [List.length_take, List.length_drop, List.length_tail, h11.1]
      · simp [List.length_drop, List.length_tail, h11.1]
      · intro ch hch
        rw [List.append_assoc, assembleTen] at hch
        exact digitsOf_all_digits s ch (List.mem_of_mem_tail hch)
      · rw [List.append_assoc, assembleTen, List.length_tail, h11.1]
      · rw [List.append_assoc, assembleTen]
        exact List.tail_suffix _
    · left
      simp [normalize_phone, h10, h11]

/-! Store operation claims. -/


lemma matchesField_email (v : String) (r : Row) :
    matchesField "email" v r = (r.email == v) := rfl

/-- Claim C4: add_contact inserts one row and returns the fresh id on
success; a duplicate email yields an absent result with the table untouched
and the stored contact still queryable; any other insertion failure is
likewise caught and converted to an absent result with the table
untouched. -/
theorem C4_add_contact_claim : ∀ (db : DB) (c : Contact),
    ((∃ r ∈ db.rows, r.email = c.email) →
      add_contact none db c = (none, db) ∧
      (find_contact none "email" c.email
          (add_contact none db c).2).isSome = true) ∧
    ((∀ r ∈ db.rows, r.email ≠ c.email) →
      add_contact none db c =
        (some db.nextId,
          ⟨db.rows ++ [⟨db.nextId, c.name, c.email, c.phone⟩],
            db.nextId + 1⟩)) ∧
    (∀ m : String, add_contact (some m) db c = (none, db)) := by
  intro db c
  refine ⟨?_, ?_, fun m => rfl⟩
  · intro hdup
    obtain ⟨r, hr, he⟩ := hdup
    have hmail : hasEmail db c.email = true := by
      rw [hasEmail, List.any_eq_true]
      exact ⟨r, hr, by simp [he]⟩
    have hadd : add_contact none db c = (none, db) := by
      simp [add_contact, insertContact, hmail]
    refine ⟨hadd, ?_⟩
    rw [hadd]
    have hv : validField "email" = true := by decide
    simp only [find_contact, hv, Bool.not_true, Bool.false_eq_true,
      if_false, Option.isSome_map']
    rw [List.find?_isSome]
    exact ⟨r, hr, by simp [matchesField_email, he]⟩
  · intro hne
    have hmail : hasEmail db c.email = false := by
      rw [hasEmail, List.any_eq_false]
      intro r hr
      simp [hne r hr]
    simp [add_contact, insertContact, hmail]

/-- Witness for C4: the duplicate, faulting and fresh cases at concrete
inputs over db1. -/
theorem C4_add_contact_claim_witness :
    add_contact none db1
        (Contact.make "Another" "alice@example.com" "5550001111") =
      (none, db1) ∧
    add_contact (some "connection lost") db1
        (Contact.make "Bob" "bob@example.com" "5550001111") =
      (none, db1) ∧
    add_contact none db1
        (Contact.make "Bob" "bob@example.com" "5550001111") =
      (some db1.nextId,
        ⟨db1.rows ++ [⟨db1.nextId,
            (Contact.make "Bob" "bob@example.com" "5550001111").name,
            (Contact.make "Bob" "bob@example.com" "5550001111").email,
            (Contact.make "Bob" "bob@example.com" "5550001111").phone⟩],
          db1.nextId + 1⟩) :=
  ⟨((C4_add_contact_claim db1
      (Contact.make "Another" "alice@example.com" "5550001111")).1
        (by decide)).1,
   (C4_add_contact_claim db1
      (Contact.make "Bob" "bob@example.com" "5550001111")).2.2
        "connection lost",
   (C4_add_contact_claim db1
      (Contact.make "Bob" "bob@example.com" "5550001111")).2.1 (by decide)⟩

/-- Claim C5: with a query field other than name or email, find_contact is
absent, update_phone and delete_contact are false, and the table is left
unchanged whatever the driver would have done (the check precedes any
statement). -/
theorem C5_invalid_field_claim : ∀ qt : String, qt ≠ "name" → qt ≠ "email" →
    ∀ (fault : Option String) (v np : String) (db : DB),
      find_contact fault qt v db = none ∧
      update_phone fault qt v np db = (false, db) ∧
      delete_contact fault qt v db = (false, db) := by
  intro qt hn he fault v np db
  have hv : validField qt = false := by
    simp [validField, hn, he]
  simp [find_contact, update_phone, delete_contact, hv]

/-- Witness for C5 at the invalid field phone. -/
theorem C5_invalid_field_claim_witness :
    find_contact none "phone" "x" db1 = none ∧
    update_phone none "phone" "x" "123" db1 = (false, db1) ∧
    delete_contact none "phone" "x" db1 = (false, db1) :=
  C5_invalid_field_claim "phone" (by decide) (by decide) none "x" "123" db1

/-- Claim C6: with a valid field and a value matching no stored row,
update_phone and delete_contact return false and leave the table exactly as
it was. -/
theorem C6_zero_match_claim : ∀ (qt v np : String) (db : DB),
    (qt = "name" ∨ qt = "email") →
    (∀ r ∈ db.rows, matchesField qt v r = false) →
    update_phone none qt v np db = (false, db) ∧
    delete_contact none qt v db = (false, db) := by
  intro qt v np db hq hmatch
  have hv : validField qt = true := by
    rcases hq with h | h <;> simp [validField, h]
  constructor
  · have hcount : db.rows.countP
        (fun r => matchesField qt v r && r.phone != normalize_phone np)
          = 0 := by
      rw [List.countP_eq_zero]
      intro r hr
      simp [hmatch r hr]
    have hmap : db.rows.map (fun r =>
        if matchesField qt v r
        then (⟨r.id, r.name, r.email, normalize_phone np⟩ : Row) else r)
          = db.rows := by
      have h : ∀ r ∈ db.rows,
          (if matchesField qt v r
            then (⟨r.id, r.name, r.email, normalize_phone np⟩ : Row) else r)
            = id r := fun r hr => by simp [hmatch r hr]
      simpa using List.map_congr_left h
    simp [update_phone, hv, hcount, hmap]
  · have hcount : db.rows.countP (matchesField qt v) = 0 := by
      rw [List.countP_eq_zero]
      intro r hr
      simp [hmatch r hr]
    have hfil : db.rows.filter (fun r => !matchesField qt v r) = db.rows := by
      rw [List.filter_eq_self]
      intro r hr
      simp [hmatch r hr]
    simp [delete_contact, hv, hcount, hfil]

/-- Witness for C6: no row of db1 is named Nobody. -/
theorem C6_zero_match_claim_witness :
    update_phone none "name" "Nobody" "123" db1 = (false, db1) ∧
    delete_contact none "name" "Nobody" db1 = (false, db1) :=
  C6_zero_match_claim "name" "Nobody" "123" db1 (Or.inl rfl) (by decide)

/-- Claim C7: with a valid field, update_phone writes the normalized new
phone to exactly the matching rows, keeps every other field and every
non-matching row unchanged, and returns true exactly when the UPDATE
affected at least one row (a matching row whose stored phone differed from
the written value, the count the driver reports). -/
theorem C7_update_phone_claim : ∀ (qt v np : String) (db : DB),
    (qt = "name" ∨ qt = "email") →
    (update_phone none qt v np db).2 =
      ⟨db.rows.map (fun r =>
          if matchesField qt v r
          then ⟨r.id, r.name, r.email, normalize_phone np⟩ else r),
        db.nextId⟩ ∧
    ((update_phone none qt v np db).1 = true ↔
      ∃ r ∈ db.rows, matchesField qt v r = true ∧
        r.phone ≠ normalize_phone np) := by
  intro qt v np db hq
  have hv : validField qt = true := by
    rcases hq with h | h <;> simp [validField, h]
  constructor
  · simp [update_phone, hv]
  · simp only [update_phone, hv, Bool.not_true, Bool.false_eq_true, if_false]
    rw [bne_iff_ne, ← Nat.pos_iff_ne_zero, List.countP_pos_iff]
    constructor
    · rintro ⟨r, hr, hp⟩
      rw [Bool.and_eq_true, bne_iff_ne] at hp
      exact ⟨r, hr, hp.1, hp.2⟩
    · rintro ⟨r, hr, hm, hp⟩
      exact ⟨r, hr, by rw [Bool.and_eq_true, bne_iff_ne]; exact ⟨hm, hp⟩⟩

/-- Witness for C7 at a concrete update over db1 by name. -/
theorem C7_update_phone_claim_witness :
    (update_phone none "name" "Alice" "5550009999" db1).2 =
      ⟨db1.rows.map (fun r =>
          if matchesField "name" "Alice" r
          then ⟨r.id, r.name, r.email, normalize_phone "5550009999"⟩ else r),
        db1.nextId⟩ ∧
    ((update_phone none "name" "Alice" "5550009999" db1).1 = true ↔
      ∃ r ∈ db1.rows, matchesField "name" "Alice" r = true ∧
        r.phone ≠ normalize_phone "5550009999") :=
  C7_update_phone_claim "name" "Alice" "5550009999" db1 (Or.inl rfl)

/-- Claim C8: get_all_contacts returns every stored row projected to
(name, email, phone), ordered by name ascending, and returns the empty
collection when retrieval fails (and, being a total function, never raises
to the caller). -/
theorem C8_get_all_contacts_claim : ∀ db : DB,
    (get_all_contacts none db).Perm
      (db.rows.map (fun r => (r.name, r.email, r.phone))) ∧
    List.Sorted (fun a b : String × String × String => a.1 ≤ b.1)
      (get_all_contacts none db) ∧
    (∀ m : String, get_all_contacts (some m) db = []) := by
  intro db
  refine ⟨?_, ?_, fun m => rfl⟩
  · exact List.Perm.map _ (List.perm_insertionSort rowLe db.rows)
  · have hs : List.Sorted rowLe (db.rows.insertionSort rowLe) :=
      List.sorted_insertionSort rowLe db.rows
    exact List.Pairwise.map _ (fun a b hab => hab) hs

/-! Import claims. -/

lemma importLoop_crash : ∀ (rs : List JRecord) (db : DB) (n : Nat),
    (∃ r ∈ rs, r.phone = none) → (importLoop db n rs).1 = 0 := by
  intro rs
  induction rs with
  | nil =>
    intro db n h
    obtain ⟨r, hr, _⟩ := h
    simp at hr
  | cons r rs ih =>
    intro db n h
    obtain ⟨rn, re, rp⟩ := r
    rcases rp with _ | p
    · simp [importLoop, normalizePhoneOpt]
    · have htail : ∃ r2 ∈ rs, r2.phone = none := by
        obtain ⟨r2, hr2, hp2⟩ := h
        rcases List.mem_cons.mp hr2 with heq | hmem
        · rw [heq] at hp2
          simp at hp2
        · exact ⟨r2, hmem, hp2⟩
      cases rn with
      | none =>
        cases re with
        | none => simpa [importLoop, normalizePhoneOpt] using ih db n htail
        | some em => simpa [importLoop, normalizePhoneOpt] using ih db n htail
      | some nm =>
        cases re with
        | none => simpa [importLoop, normalizePhoneOpt] using ih db n htail
        | some em =>
          rcases hadd : add_contact none db ⟨nm, em, normalize_phone p⟩
            with ⟨res, db2⟩
          cases res with
          | none =>
            simpa [importLoop, normalizePhoneOpt, hadd] using ih db2 n htail
          | some i =>
            simpa [importLoop, normalizePhoneOpt, hadd]
              using ih db2 (n + 1) htail

/-- Claim C9: the phone handling of the Contact constructor raises on the
absent value produced by dict.get for a record without a phone key, the
exception escapes the per-record loop to the outer handler, and the
whole import returns 0 regardless of records already imported. -/
theorem C9_missing_phone_aborts_import :
    normalizePhoneOpt none = .error .typeError ∧
    ∀ (db : DB) (rs : List JRecord),
      (∃ r ∈ rs, r.phone = none) →
      (add_contacts_from_json db (.records rs)).1 = 0 := by
  refine ⟨rfl, ?_⟩
  intro db rs h
  exact importLoop_crash rs db 0 h





/-- Witness for C9: one record without a phone makes the import return 0. -/
theorem C9_missing_phone_aborts_import_witness :
    (add_contacts_from_json db1 (.records [recNoPhone])).1 = 0 :=
  C9_missing_phone_aborts_import.2 db1 [recNoPhone]
    ⟨recNoPhone, by decide, rfl⟩

/-- Counterexample to claim C3 as stated: on the batch of a well-formed
record followed by a record missing its phone key, add_contact succeeds for
the first record (so the count of records for which add_contact succeeded
is 1, and the claim says the remaining records of the batch are still
processed), yet the import returns 0: the malformed record is not skipped,
it aborts the batch through the outer exception handler. -/
theorem C3_counterexample :
    (add_contacts_from_json dbEmpty (.records [recAlice, recNoPhone])).1
        = 0 ∧
    (add_contact none dbEmpty
        (Contact.make "Alice" "alice@example.com" "5551234567")).1
        = some 1 := by
  constructor
  · decide
  · decide

lemma importLoop_count : ∀ (rs : List JRecord) (db : DB) (n : Nat),
    (∀ r ∈ rs, r.phone ≠ none) →
    importLoop db n rs =
      (n + (importResults db rs).1.count true, (importResults db rs).2) := by
  intro rs
  induction rs with
  | nil =>
    intro db n _
    simp [importLoop, importResults]
  | cons r rs ih =>
    intro db n h
    obtain ⟨rn, re, rp⟩ := r
    have hp : rp ≠ none := h ⟨rn, re, rp⟩ (List.mem_cons_self _ _)
    rcases rp with _ | p
    · exact absurd rfl hp
    · have htail : ∀ r2 ∈ rs, r2.phone ≠ none :=
        fun r2 hr2 => h r2 (List.mem_cons_of_mem _ hr2)
      cases rn with
      | none =>
        cases re with
        | none =>
          simpa [importLoop, importResults, normalizePhoneOpt]
            using ih db n htail
        | some em =>
          simpa [importLoop, importResults, normalizePhoneOpt]
            using ih db n htail
      | some nm =>
        cases re with
        | none =>
          simpa [importLoop, importResults, normalizePhoneOpt]
            using ih db n htail
        | some em =>
          rcases hadd : add_contact none db ⟨nm, em, normalize_phone p⟩
            with ⟨res, db2⟩
          cases res with
          | none =>
            simp only [importLoop, importResults, normalizePhoneOpt,
              Contact.make, hadd]
            rw [ih db2 n htail]
            simp [List.count_cons]
          | some i =>
            simp only [importLoop, importResults, normalizePhoneOpt,
              Contact.make, hadd]
            rw [ih db2 (n + 1) htail]
            simp [List.count_cons]
            omega

/-- Claim C3 as amended: a missing file, a parse error or a malformed
top-level structure yields a zero count with the table untouched; and for a
batch in which every record carries a phone value, the import returns
exactly the number of records for which add_contact succeeded, skipping
duplicate-email and database-rejected records while the remaining records
of the batch are still processed. (As stated the claim is false: a record
missing its phone aborts the whole batch with a zero count, claim C9 and
the counterexample.) -/
theorem C3_amended_import_claim :
    (∀ db : DB,
      add_contacts_from_json db .fileNotFound = (0, db) ∧
      add_contacts_from_json db .jsonDecodeError = (0, db) ∧
      add_contacts_from_json db .malformedTop = (0, db)) ∧
    ∀ (db : DB) (rs : List JRecord),
      (∀ r ∈ rs, r.phone ≠ none) →
      add_contacts_from_json db (.records rs) =
        ((importResults db rs).1.count true, (importResults db rs).2) := by
  refine ⟨fun db => ⟨rfl, rfl, rfl⟩, ?_⟩
  intro db rs h
  have := importLoop_count rs db 0 h
  simpa [add_contacts_from_json] using this

/-- Witness for the amended C3 at a batch with a duplicate-email record:
the duplicate is skipped and the batch still processed. -/
theorem C3_amended_import_claim_witness :
    add_contacts_from_json dbEmpty (.records [recAlice, recDupAlice]) =
      ((importResults dbEmpty [recAlice, recDupAlice]).1.count true,
        (importResults dbEmpty [recAlice, recDupAlice]).2) :=
  C3_amended_import_claim.2 dbEmpty [recAlice, recDupAlice] (by decide)

end ContactMgr
